import Mathlib

/-
Verification of the convergence/state-flag engine of the kubernetes-master
reactive layer (cluster/juju/layers/kubernetes-master/reactive/kubernetes_master.py).

The Python module is shallowly embedded: the durable unit state (gates set via
set_state/remove_state, the unitdata key-value store, the data_changed
fingerprint store, the per-service FlagManager contents, files written on disk,
opened ports and the status line) is an explicit `State` record, external
collaborators (openssl, snap, kubectl, apt, the TLS layer options, relation
snapshots, random token generation) are an explicit `Env` record plus relation
records, and each reactive handler becomes a function from `State` to an
`Outcome` holding the successor state, the trace of external commands invoked,
and whether a Python exception propagated out of the handler.
-/

set_option autoImplicit false

namespace KubeMaster

universe u

/-- String-keyed association list lookup (first match wins), the shape of the
unitdata-backed dictionaries used by the charm. -/
def slookup {α : Type u} (l : List (String × α)) (k : String) : Option α :=
  (l.find? (fun p => p.1 == k)).map (fun p => p.2)

/-- Insert/overwrite a key in a string-keyed association list. -/
def sinsert {α : Type u} (l : List (String × α)) (k : String) (v : α) :
    List (String × α) :=
  (k, v) :: l.filter (fun p => !(p.1 == k))

theorem slookup_sinsert_self {α : Type u} (l : List (String × α)) (k : String)
    (v : α) : slookup (sinsert l k v) k = some v := by
  simp [slookup, sinsert, List.find?]

theorem find?_filter_ne {α : Type u} (l : List (String × α)) (k q : String)
    (h : q ≠ k) :
    ((l.filter (fun p => !(p.1 == k))).find? (fun p => p.1 == q)) =
      l.find? (fun p => p.1 == q) := by
  induction l with
  | nil => rfl
  | cons e t ih =>
    by_cases he : e.1 = k
    · have hq : (e.1 == q) = false := by
        rw [he]; exact beq_eq_false_iff_ne.mpr (fun hkq => h hkq.symm)
      have hk : (e.1 == k) = true := beq_iff_eq.mpr he
      simp [List.filter, List.find?, hk, hq, ih]
    · have hk : (e.1 == k) = false := beq_eq_false_iff_ne.mpr he
      by_cases hq : e.1 = q
      · have hq' : (e.1 == q) = true := beq_iff_eq.mpr hq
        simp [List.filter, List.find?, hk, hq']
      · have hq' : (e.1 == q) = false := beq_eq_false_iff_ne.mpr hq
        simp [List.filter, List.find?, hk, hq', ih]

theorem slookup_sinsert_ne {α : Type u} (l : List (String × α)) (k q : String)
    (v : α) (h : q ≠ k) : slookup (sinsert l k v) q = slookup l q := by
  have hq : (k == q) = false := beq_eq_false_iff_ne.mpr (fun hkq => h hkq.symm)
  simp [slookup, sinsert, List.find?, hq, find?_filter_ne l k q h]

/-- Modelled from the spec: one entry of a per-service FlagSet — a flag name,
its value, and its mode (`strict` true or `normal` false).  The FlagManager
implementation (charms.kubernetes.flagmanager) is code of this repository that
is not under src/; it is modelled here from spec sections 4.2 and 4.5. -/
structure FlagEntry where
  name : String
  value : String
  strict : Bool
deriving DecidableEq, Repr

/-- Modelled from the spec: `add(name, value, strict)` — when strict is true
any existing entries for the name (from any mode) are first removed and the
single new entry is inserted with strict mode; when strict is false a new
(possibly duplicate) entry is appended in normal mode. -/
def addFlag (es : List FlagEntry) (n v : String) (strict : Bool) :
    List FlagEntry :=
  if strict then es.filter (fun e => !(e.name == n)) ++ [⟨n, v, true⟩]
  else es ++ [⟨n, v, false⟩]

/-- Modelled from the spec: `remove(name, strict)` (called `destroy` at the
call sites) — removes the entries for the name matching the given mode;
removing a non-existent entry is a no-op. -/
def destroyFlag (es : List FlagEntry) (n : String) (strict : Bool) :
    List FlagEntry :=
  es.filter (fun e => !((e.name == n) && (e.strict == strict)))

/-- Modelled from the spec: the key under which an entry appears in the
snapshot mapping — strict entries appear under the flag name suffixed with
-strict (the source tests `data.get` on both variants). -/
def flagEntryKey (e : FlagEntry) : String :=
  if e.strict then e.name ++ "-strict" else e.name

/-- Modelled from the spec: `snapshot()` lookup — the read-only mapping view of
the current raw entries, keyed by `flagEntryKey`, most recent write winning. -/
def flagDataGet (es : List FlagEntry) (k : String) : Option String :=
  ((es.filter (fun e => flagEntryKey e == k)).getLast?).map (fun e => e.value)

/-- Modelled from the spec: `serialize()` — all current entries rendered as
name=value tokens joined by spaces in insertion order (the flag names at every
call site already carry their leading dashes). -/
def flags_to_s (es : List FlagEntry) : String :=
  String.intercalate " " (es.map (fun e => e.name ++ "=" ++ e.value))

/-- Python truthiness of an optional string: None and the empty string are
falsy, any other string is truthy. -/
def truthy (v : Option String) : Bool :=
  match v with
  | none => false
  | some s => !(s == "")

/-- Python str() of an optional value, as used by '...'.format on a value that
may be None. -/
def pyOptStr (v : Option String) : String :=
  match v with
  | none => "None"
  | some s => s

/-- One external command invocation (subprocess call or service operation)
performed by a handler; handlers record these in an ordered trace. -/
inductive Cmd where
  | snapSet (service args : String)
  | serviceRestart (unit : String)
  | opensslGenrsa (path : String)
  | kubectlApply (path : String)
  | kubectlConfig (args : String)
  | chown (owner path : String)
  | aptInstall (pkg : String)
  | render (src dst : String)
  | systemctlReload
deriving DecidableEq, Repr

/-- The etcd relation snapshot: connection string plus the client TLS material
that save_client_credentials writes to disk. -/
structure EtcdRelation where
  connectionString : String
  clientCa : String
  clientKey : String
  clientCert : String
deriving DecidableEq, Repr

/-- One entry of the load-balancer relation's get_addresses_ports() list; the
source reads it with dict.get, so both fields may be absent. -/
structure LBHost where
  publicAddress : Option String
  port : Option String
deriving DecidableEq, Repr

/-- The ceph-storage relation snapshot (ceph_admin accessor object). -/
structure CephRelation where
  monHosts : List String
  fsid : String
  auth : String
  key : Option String
deriving DecidableEq, Repr

/-- The environment of one handler run: outcomes and outputs of external
collaborators (commands, random token generation, host facts, tls-client layer
options). -/
structure Env where
  arch : String
  publicAddress : String
  privateAddress : String
  hostname : String
  tokenFor : String → String
  opensslOk : Bool
  opensslKey : String
  snapSetOk : String → Bool
  aptOk : Bool
  keyringWriteOk : Bool
  kubectlApplyOk : Bool
  tlsCaPath : String
  tlsServerCertPath : String
  tlsServerKeyPath : String
  tlsClientKeyPath : String
  tlsClientCertPath : String

/-- The durable state of the unit: reactive gates, the unitdata key-value
store, the data_changed fingerprint store, per-service FlagManager entries,
files on disk, opened ports, the last status line, and the current charm
configuration. -/
structure State where
  gates : List String
  kv : List (String × String)
  fingerprints : List (String × String)
  files : List (String × String)
  flags : List (String × List FlagEntry)
  openPorts : List Nat
  status : String × String
  config : String → String

/-- Result of running a handler: successor state, trace of external commands,
and whether a Python exception propagated out of the handler body. -/
structure Outcome where
  state : State
  calls : List Cmd
  raised : Bool

def State.empty : State :=
  { gates := [], kv := [], fingerprints := [], files := [], flags := [],
    openPorts := [], status := ("", ""), config := fun _ => "" }

def fileExists (s : State) (path : String) : Bool :=
  (slookup s.files path).isSome

def readFile (s : State) (path : String) : Option String :=
  slookup s.files path

def writeFile (s : State) (path content : String) : State :=
  { s with files := sinsert s.files path content }

def removeFile (s : State) (path : String) : State :=
  { s with files := s.files.filter (fun p => !(p.1 == path)) }

def isSet (s : State) (g : String) : Bool :=
  s.gates.contains g

def setState (s : State) (g : String) : State :=
  { s with gates := if s.gates.contains g then s.gates else g :: s.gates }

def gatesRemove (l : List String) (g : String) : List String :=
  l.filter (fun x => !(x == g))

def removeState (s : State) (g : String) : State :=
  { s with gates := gatesRemove s.gates g }

def kvGet (s : State) (k : String) : Option String :=
  slookup s.kv k

def kvSet (s : State) (k v : String) : State :=
  { s with kv := sinsert s.kv k v }

def flagsOf (s : State) (svc : String) : List FlagEntry :=
  (slookup s.flags svc).getD []

def modifyFlags (s : State) (svc : String)
    (f : List FlagEntry → List FlagEntry) : State :=
  { s with flags := sinsert s.flags svc (f (flagsOf s svc)) }

def setStatus (s : State) (level msg : String) : State :=
  { s with status := (level, msg) }

def openPort (s : State) (p : Nat) : State :=
  { s with openPorts := if s.openPorts.contains p then s.openPorts
                        else p :: s.openPorts }

/-- Modelled from the spec: the Fingerprint Store contract (spec section 4.1),
the charms.reactive data_changed helper — compares the payload against the
stored value for the name (absence counts as changed), updates the store
unconditionally, and returns whether it differed. -/
def dataChanged (s : State) (name payload : String) : Bool × State :=
  (decide (slookup s.fingerprints name ≠ some payload),
   { s with fingerprints := sinsert s.fingerprints name payload })

@[simp] theorem gates_writeFile (s : State) (p c : String) :
    (writeFile s p c).gates = s.gates := rfl

@[simp] theorem gates_removeFile (s : State) (p : String) :
    (removeFile s p).gates = s.gates := rfl

@[simp] theorem gates_modifyFlags (s : State) (svc : String)
    (f : List FlagEntry → List FlagEntry) :
    (modifyFlags s svc f).gates = s.gates := rfl

@[simp] theorem gates_setStatus (s : State) (l m : String) :
    (setStatus s l m).gates = s.gates := rfl

@[simp] theorem gates_kvSet (s : State) (k v : String) :
    (kvSet s k v).gates = s.gates := rfl

@[simp] theorem files_modifyFlags (s : State) (svc : String)
    (f : List FlagEntry → List FlagEntry) :
    (modifyFlags s svc f).files = s.files := rfl

@[simp] theorem files_setStatus (s : State) (l m : String) :
    (setStatus s l m).files = s.files := rfl

@[simp] theorem files_setState (s : State) (g : String) :
    (setState s g).files = s.files := rfl

@[simp] theorem readFile_writeFile_self (s : State) (p c : String) :
    readFile (writeFile s p c) p = some c := by
  simp [readFile, writeFile, slookup_sinsert_self]

theorem readFile_writeFile_ne (s : State) (p q c : String) (h : q ≠ p) :
    readFile (writeFile s p c) q = readFile s q := by
  simp [readFile, writeFile, slookup_sinsert_ne _ _ _ _ h]

@[simp] theorem isSet_setState_self (s : State) (g : String) :
    isSet (setState s g) g = true := by
  unfold isSet setState
  by_cases h : s.gates.contains g = true
  · simp only [if_pos h]; exact h
  · simp only [if_neg h, List.contains_cons, beq_self_eq_true, Bool.true_or]

/-- service_cidr: the frozen value from unitdata if it is truthy, otherwise
the current service-cidr charm configuration (Python `frozen_cidr or
hookenv.config(..)`). -/
def service_cidr (s : State) : String :=
  match kvGet s "kubernetes-master.service-cidr" with
  | some v => if v == "" then s.config "service-cidr" else v
  | none => s.config "service-cidr"

/-- freeze_service_cidr: store the current service_cidr() value in unitdata. -/
def freeze_service_cidr (s : State) : State :=
  kvSet s "kubernetes-master.service-cidr" (service_cidr s)

/-- setup_basic_auth: write username,password,user to basic_auth.csv. -/
def setup_basic_auth (s : State) (username password user : String) : State :=
  writeFile s "/root/cdk/basic_auth.csv"
    (username ++ "," ++ password ++ "," ++ user)

/-- setup_tokens: generate a token when none (or a falsy one) is supplied and
(over)write known_tokens.csv — the source opens the file in mode w, so each
call replaces the whole file with its single line. -/
def setup_tokens (s : State) (env : Env) (token : Option String)
    (username user : String) : State :=
  let tok := match token with
    | none => env.tokenFor username
    | some t => if t == "" then env.tokenFor username else t
  writeFile s "/root/cdk/known_tokens.csv"
    (tok ++ "," ++ username ++ "," ++ user)

/-- setup_authentication handler body: accumulate apiserver/controller flags,
create the basic-auth and token files only when absent, run openssl genrsa for
the service-account key (check_call: a failure raises and aborts the body
before the gate is set), and set authentication.setup on success. -/
def setup_authentication (s : State) (env : Env) : Outcome :=
  let s1 := modifyFlags s "kube-apiserver" (fun es =>
    addFlag (addFlag (addFlag es
      "--basic-auth-file" "/root/cdk/basic_auth.csv" false)
      "--token-auth-file" "/root/cdk/known_tokens.csv" false)
      "--service-cluster-ip-range" (service_cidr s) false)
  let s2 := setStatus s1 "maintenance" "Rendering authentication templates."
  let s3 := if fileExists s2 "/root/cdk/basic_auth.csv" then s2
            else setup_basic_auth s2 "admin" "admin" "admin"
  let s4 := if fileExists s3 "/root/cdk/known_tokens.csv" then s3
            else setup_tokens (setup_tokens (setup_tokens s3 env none
              "admin" "admin") env none "kubelet" "kubelet") env none
              "kube_proxy" "kube_proxy"
  if env.opensslOk then
    let s5 := writeFile s4 "/root/cdk/serviceaccount.key" env.opensslKey
    let s6 := modifyFlags s5 "kube-apiserver" (fun es =>
      addFlag es "--service-account-key-file" "/root/cdk/serviceaccount.key"
        false)
    let s7 := modifyFlags s6 "kube-controller-manager" (fun es =>
      addFlag es "--service-account-private-key-file"
        "/root/cdk/serviceaccount.key" false)
    { state := setState s7 "authentication.setup",
      calls := [Cmd.opensslGenrsa "/root/cdk/serviceaccount.key"],
      raised := false }
  else
    { state := s4,
      calls := [Cmd.opensslGenrsa "/root/cdk/serviceaccount.key"],
      raised := true }

/-- The authentication-bootstrap rule: the body guarded by its when_not
authentication.setup precondition. -/
def setup_authentication_rule (s : State) (env : Env) : Outcome :=
  if isSet s "authentication.setup" then
    { state := s, calls := [], raised := false }
  else setup_authentication s env

/-- The five destroy calls of handle_etcd_relation, executed when the
apiserver FlagSet snapshot already holds an etcd-servers entry. -/
def etcdTeardown (es : List FlagEntry) : List FlagEntry :=
  destroyFlag (destroyFlag (destroyFlag (destroyFlag (destroyFlag es
    "--etcd-cafile" false) "--etcd-keyfile" false) "--etcd-certfile" false)
    "--etcd-servers" true) "--etcd-servers" false

/-- The four add calls of handle_etcd_relation (the etcd-servers one strict). -/
def etcdReadd (es : List FlagEntry) (conn : String) : List FlagEntry :=
  addFlag (addFlag (addFlag (addFlag es
    "--etcd-cafile" "/root/cdk/etcd/client-ca.pem" false)
    "--etcd-keyfile" "/root/cdk/etcd/client-key.pem" false)
    "--etcd-certfile" "/root/cdk/etcd/client-cert.pem" false)
    "--etcd-servers" conn true

/-- The FlagManager manipulation of handle_etcd_relation: when the snapshot
holds a truthy entry under either the strict or the normal etcd-servers key,
tear the etcd flags down first, then re-add them with a strict servers flag. -/
def handleEtcdFlags (es : List FlagEntry) (conn : String) : List FlagEntry :=
  let es1 := if truthy (flagDataGet es "--etcd-servers-strict") ||
                truthy (flagDataGet es "--etcd-servers")
             then etcdTeardown es else es
  etcdReadd es1 conn

/-- handle_etcd_relation: save the client TLS credentials from the relation
to disk and update the kube-apiserver FlagManager. -/
def handle_etcd_relation (s : State) (etcd : EtcdRelation) : State :=
  let s1 := writeFile s "/root/cdk/etcd/client-ca.pem" etcd.clientCa
  let s2 := writeFile s1 "/root/cdk/etcd/client-key.pem" etcd.clientKey
  let s3 := writeFile s2 "/root/cdk/etcd/client-cert.pem" etcd.clientCert
  modifyFlags s3 "kube-apiserver"
    (fun es => handleEtcdFlags es etcd.connectionString)

/-- render_service: render the systemd unit file and the defaults file for a
service (template rendering is an external collaborator; contents are opaque). -/
def render_service (s : State) (serviceName : String) : State × List Cmd :=
  let unitTarget := "/lib/systemd/system/" ++ serviceName ++ ".service"
  let confTarget := "/etc/default/" ++ serviceName
  let s1 := writeFile s unitTarget ("rendered:" ++ serviceName ++ ".service")
  let s2 := writeFile s1 confTarget ("rendered:" ++ serviceName ++ ".defaults")
  (s2, [Cmd.render (serviceName ++ ".service") unitTarget,
        Cmd.render (serviceName ++ ".defaults") confTarget])

/-- render_files: accumulate the static flags for the three control-plane
services, render the controller-manager and scheduler service files and the
generic defaults file, and reload systemd. -/
def render_files (s : State) (env : Env) : State × List Cmd :=
  let s1 := modifyFlags s "kube-apiserver" (fun es =>
    addFlag (addFlag (addFlag (addFlag (addFlag (addFlag (addFlag (addFlag
      (addFlag (addFlag es
      "--min-request-timeout" "300" false)
      "--v" "4" false)
      "--client-ca-file" env.tlsCaPath false)
      "--tls-cert-file" env.tlsServerCertPath false)
      "--tls-private-key-file" env.tlsServerKeyPath false)
      "--logtostderr" "true" false)
      "--allow-privileged" "false" false)
      "--insecure-bind-address" "127.0.0.1" false)
      "--insecure-port" "8080" false)
      "--admission-control"
      "NamespaceLifecycle,LimitRanger,ServiceAccount,ResourceQuota" true)
  let s2 := modifyFlags s1 "kube-scheduler" (fun es =>
    addFlag (addFlag (addFlag es
      "--v" "2" false)
      "--logtostderr" "true" false)
      "--master" "http://127.0.0.1:8080" false)
  let s3 := modifyFlags s2 "kube-controller-manager" (fun es =>
    addFlag (addFlag (addFlag (addFlag (addFlag es
      "--min-resync-period" "3m" false)
      "--v" "2" false)
      "--root-ca-file" env.tlsCaPath false)
      "--logtostderr" "true" false)
      "--master" "http://127.0.0.1:8080" false)
  let p1 := render_service s3 "kube-controller-manager"
  let p2 := render_service p1.1 "kube-scheduler"
  let s6 := writeFile p2.1 "/etc/default/kube-defaults"
    "rendered:kube-defaults.defaults"
  (s6, p1.2 ++ p2.2 ++
    [Cmd.render "kube-defaults.defaults" "/etc/default/kube-defaults",
     Cmd.systemctlReload])

/-- The services list of start_master as written in the source: the first two
string literals are adjacent with no comma between them, so Python
concatenates them into the single element kube-apiserverkube-controller-manager. -/
def start_master_services : List String :=
  ["kube-apiserver" ++ "kube-controller-manager", "kube-scheduler"]

/-- The snap-set / service-restart loop of start_master; check_call on a
failing snap set raises and aborts the loop. -/
def startServices (s : State) (env : Env) : List String → Outcome
  | [] => { state := s, calls := [], raised := false }
  | svc :: rest =>
    let args := flags_to_s (flagsOf s svc)
    if env.snapSetOk svc then
      let out := startServices s env rest
      { state := out.state,
        calls := Cmd.snapSet svc args ::
          Cmd.serviceRestart ("snap." ++ svc ++ ".daemon") :: out.calls,
        raised := out.raised }
    else { state := s, calls := [Cmd.snapSet svc args], raised := true }

/-- start_master handler body: freeze the service CIDR, merge the etcd flags,
render the service files, run the snap-set/restart loop over the (buggy)
services list, open port 6443 and set components.started. -/
def start_master (s : State) (env : Env) (etcd : EtcdRelation) : Outcome :=
  let s1 := setStatus s "maintenance"
    "Rendering the Kubernetes master systemd files."
  let s2 := freeze_service_cidr s1
  let s3 := handle_etcd_relation s2 etcd
  let p := render_files s3 env
  let s5 := setStatus p.1 "maintenance"
    "Starting the Kubernetes master services."
  let out := startServices s5 env start_master_services
  if out.raised then
    { state := out.state, calls := p.2 ++ out.calls, raised := true }
  else
    let s6 := openPort out.state 6443
    { state := setState s6 "kubernetes-master.components.started",
      calls := p.2 ++ out.calls, raised := false }

/-- create_kubeconfig: the four chained kubectl config invocations (with the
default user/context/cluster arguments of the source). -/
def create_kubeconfig_calls (kubeconfig server ca key certificate : String) :
    List Cmd :=
  [Cmd.kubectlConfig ("--kubeconfig=" ++ kubeconfig ++
     " set-cluster juju-cluster --server=" ++ server ++
     " --certificate-authority=" ++ ca ++ " --embed-certs=true"),
   Cmd.kubectlConfig ("--kubeconfig=" ++ kubeconfig ++
     " set-credentials ubuntu --client-key=" ++ key ++
     " --client-certificate=" ++ certificate ++ " --embed-certs=true"),
   Cmd.kubectlConfig ("--kubeconfig=" ++ kubeconfig ++
     " set-context juju-context --cluster=juju-cluster --user=ubuntu"),
   Cmd.kubectlConfig ("--kubeconfig=" ++ kubeconfig ++
     " use-context juju-context")]

/-- build_kubeconfig: when the CA, client key, and client certificate paths
from the tls-client layer options are truthy and exist on disk, consult the
fingerprint store under kubeconfig.server and regenerate (four kubectl config
calls plus a chown) only when the server string changed. -/
def build_kubeconfig (s : State) (env : Env) (server : String) :
    State × List Cmd :=
  let ca := env.tlsCaPath
  let key := env.tlsClientKeyPath
  let cert := env.tlsClientCertPath
  if (!(ca == "") && fileExists s ca) &&
     ((!(key == "") && fileExists s key) &&
      (!(cert == "") && fileExists s cert)) then
    let p := dataChanged s "kubeconfig.server" server
    if p.1 then
      (p.2, create_kubeconfig_calls "/home/ubuntu/config" server ca key cert ++
        [Cmd.chown "ubuntu:ubuntu" "/home/ubuntu/config"])
    else (p.2, [])
  else (s, [])

/-- loadbalancer_kubeconfig handler: read the first entry of the relation's
address/port list (an IndexError propagates when the list is empty, before
any kubeconfig work) and build the kubeconfig for
https://address:port. -/
def loadbalancer_kubeconfig (s : State) (env : Env) (hosts : List LBHost) :
    Outcome :=
  match hosts with
  | [] => { state := s, calls := [], raised := true }
  | h :: _ =>
    let server := "https://" ++ pyOptStr h.publicAddress ++ ":" ++
      pyOptStr h.port
    let p := build_kubeconfig s env server
    { state := p.1, calls := p.2, raised := false }

/-- create_self_config handler: build the kubeconfig for the unit's own
public address on port 6443. -/
def create_self_config (s : State) (env : Env) : Outcome :=
  let server := "https://" ++ env.publicAddress ++ ":6443"
  let p := build_kubeconfig s env server
  { state := p.1, calls := p.2, raised := false }

/-- Canonical encoding of the ceph_relation_data dictionary built by
ceph_state_control (mon_hosts, fsid, auth_supported, hostname, key). -/
def encodeCephData (rel : CephRelation) (hostname : String) : String :=
  "mon_hosts=" ++ String.intercalate "," rel.monHosts ++
  ";fsid=" ++ rel.fsid ++
  ";auth_supported=" ++ rel.auth ++
  ";hostname=" ++ hostname ++
  ";key=" ++ pyOptStr rel.key

/-- ceph_state_control handler: recompute the fingerprint of the ceph relation
data and clear ceph-storage.configured when it changed. -/
def ceph_state_control (s : State) (env : Env) (rel : CephRelation) : State :=
  let payload := encodeCephData rel env.hostname
  let p := dataChanged s "ceph-config" payload
  if p.1 then removeState p.2 "ceph-storage.configured" else p.2

/-- ceph_storage handler body: install ceph-common (fatal on failure), render
ceph.conf, write the admin keyring (an IOError is caught and logged), and only
when the relation key is truthy render the secret manifest and kubectl-apply
it (a failure there is swallowed and the gate left unset); on full success set
ceph-storage.configured. -/
def ceph_storage (s : State) (env : Env) (rel : CephRelation) : Outcome :=
  if env.aptOk then
    let s1 := writeFile s "/etc/ceph/ceph.conf" "rendered:ceph.conf"
    let s2 := if env.keyringWriteOk then
        writeFile s1 "/etc/ceph/ceph.client.admin.keyring"
          ("[client.admin]\n\tkey = " ++ pyOptStr rel.key ++ "\n")
      else s1
    match rel.key with
    | none =>
      { state := s2, calls := [Cmd.aptInstall "ceph-common"], raised := false }
    | some k =>
      if k == "" then
        { state := s2, calls := [Cmd.aptInstall "ceph-common"],
          raised := false }
      else
        let s3 := writeFile s2 "/tmp/ceph-secret.yaml"
          ("rendered:ceph-secret.yaml:" ++ k)
        if env.kubectlApplyOk then
          let s4 := removeFile s3 "/tmp/ceph-secret.yaml"
          { state := setState s4 "ceph-storage.configured",
            calls := [Cmd.aptInstall "ceph-common",
                      Cmd.kubectlApply "/tmp/ceph-secret.yaml"],
            raised := false }
        else
          { state := s3,
            calls := [Cmd.aptInstall "ceph-common",
                      Cmd.kubectlApply "/tmp/ceph-secret.yaml"],
            raised := false }
  else
    { state := s, calls := [Cmd.aptInstall "ceph-common"], raised := true }

/-- The service-restart targets in a command trace, in order. -/
def restartTargets (calls : List Cmd) : List String :=
  calls.filterMap (fun c => match c with
    | Cmd.serviceRestart u => some u
    | _ => none)

/-- A default environment for concrete runs: every external command succeeds
and host facts take simple concrete values. -/
def envDefault : Env :=
  { arch := "amd64", publicAddress := "1.2.3.4", privateAddress := "10.0.0.4",
    hostname := "master-0", tokenFor := fun u => "TOK-" ++ u,
    opensslOk := true, opensslKey := "RSAKEY-1",
    snapSetOk := fun _ => true, aptOk := true, keyringWriteOk := true,
    kubectlApplyOk := true, tlsCaPath := "/srv/kubernetes/ca.crt",
    tlsServerCertPath := "/srv/kubernetes/server.crt",
    tlsServerKeyPath := "/srv/kubernetes/server.key",
    tlsClientKeyPath := "/srv/kubernetes/client.key",
    tlsClientCertPath := "/srv/kubernetes/client.crt" }

theorem filter_addFlag_strict (es : List FlagEntry) (n v : String) :
    (addFlag es n v true).filter (fun e => e.name == n) =
      [⟨n, v, true⟩] := by
  show ((es.filter (fun e => !(e.name == n)) ++
      [(⟨n, v, true⟩ : FlagEntry)]).filter (fun e => e.name == n)) =
      [⟨n, v, true⟩]
  rw [List.filter_append]
  have h1 : (es.filter (fun e => !(e.name == n))).filter
      (fun e => e.name == n) = [] := by
    refine List.filter_eq_nil_iff.mpr ?_
    intro e he
    have h2 := (List.mem_filter.mp he).2
    simp only [Bool.not_eq_true'] at h2
    simp [h2]
  rw [h1]
  simp [List.filter]

theorem filter_destroy_both_modes (es : List FlagEntry) (n : String) :
    ((destroyFlag (destroyFlag es n true) n false).filter
      (fun e => e.name == n)) = [] := by
  refine List.filter_eq_nil_iff.mpr ?_
  intro e he
  simp only [destroyFlag] at he
  have h1 := (List.mem_filter.mp he).2
  have h3 := (List.mem_filter.mp (List.mem_filter.mp he).1).2
  intro hc
  simp only [hc, Bool.true_and, Bool.not_eq_true'] at h1 h3
  cases hs : e.strict
  · rw [hs] at h1; simp at h1
  · rw [hs] at h3; simp at h3

/-- C2: when handle_etcd_relation runs with an apiserver FlagSet snapshot
already holding an entry under the strict or non-strict etcd-servers key, the
prior etcd entries are destroyed (the teardown leaves no etcd-servers entry of
either mode) before the new strict value is added, and afterwards the FlagSet
holds exactly one strict etcd-servers entry, carrying the fresh connection
string, and zero non-strict ones. -/
theorem handle_etcd_strict_replace (es : List FlagEntry) (conn : String)
    (h : truthy (flagDataGet es "--etcd-servers-strict") = true ∨
         truthy (flagDataGet es "--etcd-servers") = true) :
    handleEtcdFlags es conn = etcdReadd (etcdTeardown es) conn ∧
    ((etcdTeardown es).filter (fun e => e.name == "--etcd-servers")) = [] ∧
    ((handleEtcdFlags es conn).filter
      (fun e => e.name == "--etcd-servers")) =
      [⟨"--etcd-servers", conn, true⟩] := by
  have hbr : handleEtcdFlags es conn = etcdReadd (etcdTeardown es) conn := by
    unfold handleEtcdFlags
    rcases h with h1 | h1 <;> simp [h1]
  refine ⟨hbr, filter_destroy_both_modes _ _, ?_⟩
  rw [hbr]
  exact filter_addFlag_strict _ _ _

theorem handle_etcd_strict_replace_witness :
    truthy (flagDataGet [⟨"--etcd-servers", "http://old:4001", false⟩]
        "--etcd-servers") = true ∧
    ((handleEtcdFlags [⟨"--etcd-servers", "http://old:4001", false⟩]
        "https://10.0.0.5:2379").filter
      (fun e => e.name == "--etcd-servers")) =
      [⟨"--etcd-servers", "https://10.0.0.5:2379", true⟩] :=
  ⟨by decide,
   (handle_etcd_strict_replace
     [⟨"--etcd-servers", "http://old:4001", false⟩] "https://10.0.0.5:2379"
     (Or.inr (by decide))).2.2⟩

def cidrStateA : State := State.empty

def cidrStateB : State :=
  { freeze_service_cidr cidrStateA with config := fun _ => "10.0.0.0/16" }

/-- C6 counterexample: with no frozen value and an empty service-cidr
configuration, freeze_service_cidr stores the empty string; a later call to
service_cidr after the configuration changed to 10.0.0.0/16 returns
10.0.0.0/16, not the value stored at freeze time — the pinning claim fails
because the source falls back through Python or-truthiness when the frozen
value is empty. -/
theorem freeze_service_cidr_empty_counterexample :
    kvGet (freeze_service_cidr cidrStateA)
      "kubernetes-master.service-cidr" = some "" ∧
    service_cidr cidrStateB = "10.0.0.0/16" ∧
    ("10.0.0.0/16" : String) ≠ "" := by decide

/-- C6 amended: after freeze_service_cidr has stored a NON-EMPTY value, every
later call to service_cidr returns that stored value regardless of any
subsequent change to the service-cidr configuration, and further freezes keep
the stored value unchanged; when the stored value is the empty string the
source instead falls back to the current configuration value. -/
theorem service_cidr_frozen_pinned (s : State) (v : String)
    (hv : kvGet s "kubernetes-master.service-cidr" = some v)
    (hne : v ≠ "") :
    (∀ c : String → String, service_cidr { s with config := c } = v) ∧
    (∀ c : String → String,
      kvGet (freeze_service_cidr { s with config := c })
        "kubernetes-master.service-cidr" = some v) := by
  have hb : (v == "") = false := beq_eq_false_iff_ne.mpr hne
  have hcid : ∀ c : String → String,
      service_cidr { s with config := c } = v := by
    intro c
    have hv' : kvGet { s with config := c }
        "kubernetes-master.service-cidr" = some v := hv
    simp [service_cidr, hv', hb]
  refine ⟨hcid, fun c => ?_⟩
  simp [freeze_service_cidr, kvSet, kvGet, hcid c, slookup_sinsert_self]

theorem service_cidr_frozen_pinned_witness :
    kvGet (freeze_service_cidr { State.empty with
        config := fun _ => "10.152.183.0/24" })
      "kubernetes-master.service-cidr" = some "10.152.183.0/24" ∧
    service_cidr { freeze_service_cidr { State.empty with
        config := fun _ => "10.152.183.0/24" } with
        config := fun _ => "10.0.0.0/16" } = "10.152.183.0/24" :=
  ⟨by decide,
   (service_cidr_frozen_pinned
     (freeze_service_cidr { State.empty with
        config := fun _ => "10.152.183.0/24" })
     "10.152.183.0/24" (by decide) (by decide)).1
     (fun _ => "10.0.0.0/16")⟩

/-- C8: on every run, ceph_state_control updates the ceph-config fingerprint
to the current relation data and clears ceph-storage.configured exactly when
that data differs from the last observed value, leaving the gate set
untouched when it is unchanged. -/
theorem ceph_state_control_change_detector (s : State) (env : Env)
    (rel : CephRelation) :
    (ceph_state_control s env rel).gates =
      (if slookup s.fingerprints "ceph-config" =
          some (encodeCephData rel env.hostname)
       then s.gates
       else gatesRemove s.gates "ceph-storage.configured") ∧
    slookup (ceph_state_control s env rel).fingerprints "ceph-config" =
      some (encodeCephData rel env.hostname) := by
  unfold ceph_state_control dataChanged
  by_cases h : slookup s.fingerprints "ceph-config" =
      some (encodeCephData rel env.hostname)
  · simp [h, removeState, slookup_sinsert_self]
  · simp [h, removeState, slookup_sinsert_self]

/-- C10: the loadbalancer_kubeconfig rule requires a non-empty address/port
list — with the empty list it fails (an exception propagates) before any
kubeconfig work is performed and leaves the state untouched, and a
non-raising run implies the list was non-empty. -/
theorem loadbalancer_kubeconfig_empty_hosts (s : State) (env : Env)
    (hosts : List LBHost) :
    (hosts = [] → loadbalancer_kubeconfig s env hosts =
      { state := s, calls := [], raised := true }) ∧
    ((loadbalancer_kubeconfig s env hosts).raised = false → hosts ≠ []) := by
  constructor
  · intro h; subst h; rfl
  · intro h hnil; subst hnil
    simp [loadbalancer_kubeconfig] at h

theorem loadbalancer_kubeconfig_empty_hosts_witness :
    loadbalancer_kubeconfig State.empty envDefault [] =
      { state := State.empty, calls := [], raised := true } :=
  (loadbalancer_kubeconfig_empty_hosts State.empty envDefault []).1 rfl

theorem setup_authentication_fail_aux (s : State) (env : Env)
    (hssl : env.opensslOk = false) :
    (setup_authentication s env).state.gates = s.gates ∧
    (setup_authentication s env).raised = true := by
  unfold setup_authentication
  rw [hssl]
  constructor
  · simp only [Bool.false_eq_true, if_false]
    split <;> split <;> simp [setup_basic_auth, setup_tokens]
  · simp only [Bool.false_eq_true, if_false]

/-- C5: when the external openssl key-generation command fails, the failure
propagates out of the authentication-bootstrap rule (the pass aborts with an
exception) and the authentication.setup gate is left unset, so the rule fires
again on the next trigger. -/
theorem setup_authentication_openssl_failure (s : State) (env : Env)
    (hgate : isSet s "authentication.setup" = false)
    (hssl : env.opensslOk = false) :
    (setup_authentication_rule s env).raised = true ∧
    isSet (setup_authentication_rule s env).state
      "authentication.setup" = false := by
  have haux := setup_authentication_fail_aux s env hssl
  unfold setup_authentication_rule
  rw [hgate]
  simp only [Bool.false_eq_true, if_false]
  refine ⟨haux.2, ?_⟩
  rw [isSet, haux.1]
  exact hgate

theorem setup_authentication_openssl_failure_witness :
    isSet State.empty "authentication.setup" = false ∧
    (setup_authentication_rule State.empty
      { envDefault with opensslOk := false }).raised = true ∧
    isSet (setup_authentication_rule State.empty
      { envDefault with opensslOk := false }).state
      "authentication.setup" = false := by
  have h := setup_authentication_openssl_failure State.empty
    { envDefault with opensslOk := false } (by decide) rfl
  exact ⟨by decide, h.1, h.2⟩

theorem ceph_storage_run_spec (s : State) (env : Env) (rel : CephRelation)
    (hapt : env.aptOk = true) :
    (ceph_storage s env rel).raised = false ∧
    (ceph_storage s env rel).state.gates =
      (if (truthy rel.key && env.kubectlApplyOk) = true then
        (setState s "ceph-storage.configured").gates else s.gates) := by
  unfold ceph_storage
  rw [hapt]
  rcases rel.key with _ | k
  · cases hkw : env.keyringWriteOk <;> simp [truthy, hkw]
  · cases hke : (k == "") <;> cases hkw : env.keyringWriteOk <;>
      cases hap : env.kubectlApplyOk <;>
        simp [truthy, hke, hkw, hap, setState, writeFile, removeFile]

/-- C9: when the ceph_storage rule runs (package installation succeeding and
the gate not yet set) with an absent or empty admin auth key, it returns
without raising and without setting ceph-storage.configured, and the gate can
only come out set when the relation carried a non-empty key and the kubectl
apply that publishes it as a secret succeeded. -/
theorem ceph_storage_missing_key_noop (s : State) (env : Env)
    (rel : CephRelation)
    (hgate : isSet s "ceph-storage.configured" = false)
    (hapt : env.aptOk = true) :
    ((rel.key = none ∨ rel.key = some "") →
      (ceph_storage s env rel).raised = false ∧
      isSet (ceph_storage s env rel).state
        "ceph-storage.configured" = false) ∧
    (isSet (ceph_storage s env rel).state
        "ceph-storage.configured" = true →
      ∃ k, rel.key = some k ∧ k ≠ "" ∧ env.kubectlApplyOk = true) := by
  obtain ⟨hraise, hgates⟩ := ceph_storage_run_spec s env rel hapt
  constructor
  · intro hkey
    refine ⟨hraise, ?_⟩
    have ht : truthy rel.key = false := by
      rcases hkey with h | h <;> rw [h] <;> rfl
    rw [isSet, hgates, ht]
    simpa [isSet] using hgate
  · intro hset
    rw [isSet, hgates] at hset
    by_cases hcond : (truthy rel.key && env.kubectlApplyOk) = true
    · rcases hkt : rel.key with _ | k
      · rw [hkt] at hcond
        exact absurd hcond (by simp [truthy])
      · refine ⟨k, rfl, ?_, ?_⟩
        · intro hke
          rw [hkt, hke] at hcond
          simp [truthy] at hcond
        · rw [hkt] at hcond
          simp [truthy] at hcond
          exact hcond.2
    · rw [if_neg (by simpa using hcond)] at hset
      rw [isSet] at hgate
      rw [hgate] at hset
      exact absurd hset Bool.false_ne_true

theorem ceph_storage_missing_key_noop_witness :
    (ceph_storage State.empty envDefault
      { monHosts := ["10.0.0.9"], fsid := "f", auth := "cephx",
        key := none }).raised = false ∧
    isSet (ceph_storage State.empty envDefault
      { monHosts := ["10.0.0.9"], fsid := "f", auth := "cephx",
        key := none }).state "ceph-storage.configured" = false :=
  (ceph_storage_missing_key_noop State.empty envDefault
    { monHosts := ["10.0.0.9"], fsid := "f", auth := "cephx", key := none }
    (by decide) rfl).1 (Or.inl rfl)

@[simp] theorem fileExists_modifyFlags (s : State) (svc : String)
    (f : List FlagEntry → List FlagEntry) (p : String) :
    fileExists (modifyFlags s svc f) p = fileExists s p := rfl

@[simp] theorem fileExists_setStatus (s : State) (l m p : String) :
    fileExists (setStatus s l m) p = fileExists s p := rfl

theorem setup_authentication_present_aux (s : State) (env : Env)
    (hba : fileExists s "/root/cdk/basic_auth.csv" = true)
    (htk : fileExists s "/root/cdk/known_tokens.csv" = true)
    (hssl : env.opensslOk = true) :
    (setup_authentication s env).state.files =
      sinsert s.files "/root/cdk/serviceaccount.key" env.opensslKey ∧
    isSet (setup_authentication s env).state "authentication.setup" = true ∧
    (setup_authentication s env).raised = false := by
  unfold setup_authentication
  rw [hssl]
  simp only [fileExists_modifyFlags, fileExists_setStatus, hba, htk, if_true]
  exact ⟨rfl, isSet_setState_self _ _, trivial⟩

def authCState : State :=
  { State.empty with files :=
      [("/root/cdk/basic_auth.csv", "admin,admin,admin"),
       ("/root/cdk/known_tokens.csv", "T0,admin,admin"),
       ("/root/cdk/serviceaccount.key", "OLDKEY")] }

/-- C4 counterexample: invoking the authentication-bootstrap rule twice in a
row with all its credential files already present on disk DOES alter file
contents — the unconditional openssl genrsa of the first firing overwrites
/root/cdk/serviceaccount.key (here OLDKEY becomes RSAKEY-1), so the claim as
stated is false. -/
theorem setup_authentication_rewrites_key_counterexample :
    readFile authCState "/root/cdk/serviceaccount.key" = some "OLDKEY" ∧
    readFile (setup_authentication_rule (setup_authentication_rule authCState
        envDefault).state envDefault).state "/root/cdk/serviceaccount.key" =
      some "RSAKEY-1" ∧
    ("RSAKEY-1" : String) ≠ "OLDKEY" := by decide

/-- C4 amended: invoking the authentication-bootstrap rule twice in a row,
with the credential files already present on disk and the key-generation
command succeeding, leaves the basic-auth and known-tokens files unchanged
and still results in the authentication.setup gate being set, and the second
invocation does not change the state at all; the service-account key file is
exempt — the first firing unconditionally regenerates it. -/
theorem setup_authentication_replay_amended (s : State) (env : Env)
    (hba : fileExists s "/root/cdk/basic_auth.csv" = true)
    (htk : fileExists s "/root/cdk/known_tokens.csv" = true)
    (hssl : env.opensslOk = true) :
    readFile (setup_authentication_rule
        (setup_authentication_rule s env).state env).state
      "/root/cdk/basic_auth.csv" = readFile s "/root/cdk/basic_auth.csv" ∧
    readFile (setup_authentication_rule
        (setup_authentication_rule s env).state env).state
      "/root/cdk/known_tokens.csv" =
      readFile s "/root/cdk/known_tokens.csv" ∧
    isSet (setup_authentication_rule
        (setup_authentication_rule s env).state env).state
      "authentication.setup" = true ∧
    (setup_authentication_rule
        (setup_authentication_rule s env).state env).state =
      (setup_authentication_rule s env).state := by
  by_cases hg : isSet s "authentication.setup" = true
  · have h1 : setup_authentication_rule s env =
        { state := s, calls := [], raised := false } := by
      unfold setup_authentication_rule
      rw [if_pos hg]
    rw [h1, h1]
    exact ⟨rfl, rfl, hg, rfl⟩
  · have hgf : isSet s "authentication.setup" = false := by
      revert hg
      cases isSet s "authentication.setup" <;> simp
    obtain ⟨hfiles, hgset, _⟩ :=
      setup_authentication_present_aux s env hba htk hssl
    have h1 : setup_authentication_rule s env = setup_authentication s env := by
      unfold setup_authentication_rule
      rw [hgf]
      simp
    have h2 : setup_authentication_rule
        (setup_authentication s env).state env =
        { state := (setup_authentication s env).state, calls := [],
          raised := false } := by
      unfold setup_authentication_rule
      rw [if_pos hgset]
    rw [h1, h2]
    refine ⟨?_, ?_, hgset, rfl⟩
    · rw [readFile, readFile, hfiles]
      exact slookup_sinsert_ne _ _ _ _ (by decide)
    · rw [readFile, readFile, hfiles]
      exact slookup_sinsert_ne _ _ _ _ (by decide)

theorem setup_authentication_replay_amended_witness :
    fileExists authCState "/root/cdk/basic_auth.csv" = true ∧
    readFile (setup_authentication_rule (setup_authentication_rule authCState
        envDefault).state envDefault).state "/root/cdk/basic_auth.csv" =
      readFile authCState "/root/cdk/basic_auth.csv" ∧
    readFile (setup_authentication_rule (setup_authentication_rule authCState
        envDefault).state envDefault).state "/root/cdk/known_tokens.csv" =
      readFile authCState "/root/cdk/known_tokens.csv" ∧
    isSet (setup_authentication_rule (setup_authentication_rule authCState
        envDefault).state envDefault).state "authentication.setup" = true := by
  have h := setup_authentication_replay_amended authCState envDefault
    (by decide) (by decide) rfl
  exact ⟨by decide, h.1, h.2.1, h.2.2.1⟩

/-- C3 (the code evaluated at the failing input): starting from a fresh state
with no credential files on disk, the authentication bootstrap leaves
known_tokens.csv holding only the kube_proxy token line — each of the three
setup_tokens calls truncates the file on open, so the admin and kubelet
entries written by the first two calls are lost instead of accumulating. -/
theorem known_tokens_only_last_role :
    readFile (setup_authentication State.empty envDefault).state
      "/root/cdk/known_tokens.csv" =
      some "TOK-kube_proxy,kube_proxy,kube_proxy" ∧
    (some "TOK-kube_proxy,kube_proxy,kube_proxy" : Option String) ≠
      some ("TOK-admin,admin,admin\nTOK-kubelet,kubelet,kubelet\n" ++
        "TOK-kube_proxy,kube_proxy,kube_proxy") := by decide

def masterState : State :=
  { State.empty with config := fun _ => "10.152.183.0/24" }

def etcdRelA : EtcdRelation :=
  { connectionString := "https://10.10.10.1:2379", clientCa := "CADATA",
    clientKey := "KEYDATA", clientCert := "CERTDATA" }

/-- C1 (the code evaluated at the failing input): with every external command
succeeding, start_master opens port 6443 and sets components.started, but the
missing comma between the first two string literals of its services list makes
it restart only two units — snap.kube-apiserverkube-controller-manager.daemon
(a nonexistent concatenated name) and snap.kube-scheduler.daemon — and never
the three control-plane services the claim names. -/
theorem start_master_restart_list_bug :
    restartTargets (start_master masterState envDefault etcdRelA).calls =
      ["snap.kube-apiserverkube-controller-manager.daemon",
       "snap.kube-scheduler.daemon"] ∧
    Cmd.serviceRestart "snap.kube-apiserver.daemon" ∉
      (start_master masterState envDefault etcdRelA).calls ∧
    Cmd.serviceRestart "snap.kube-controller-manager.daemon" ∉
      (start_master masterState envDefault etcdRelA).calls ∧
    isSet (start_master masterState envDefault etcdRelA).state
      "kubernetes-master.components.started" = true ∧
    (start_master masterState envDefault etcdRelA).state.openPorts.contains
      6443 = true := by decide

/-- C7: the kubeconfig rules choose the server endpoint as
https://address:port from the first entry of the load-balancer relation's
address list when that relation is available, and as
https://unit-public-address:6443 otherwise; and with the CA, client key and
client certificate files existing, build_kubeconfig performs no external
commands when the chosen server string is unchanged according to the
fingerprint store. -/
theorem kubeconfig_server_choice_and_skip (s : State) (env : Env)
    (h : LBHost) (t : List LBHost)
    (hca : env.tlsCaPath ≠ "")
    (hcaf : fileExists s env.tlsCaPath = true)
    (hkey : env.tlsClientKeyPath ≠ "")
    (hkeyf : fileExists s env.tlsClientKeyPath = true)
    (hcert : env.tlsClientCertPath ≠ "")
    (hcertf : fileExists s env.tlsClientCertPath = true) :
    loadbalancer_kubeconfig s env (h :: t) =
      { state := (build_kubeconfig s env ("https://" ++
          pyOptStr h.publicAddress ++ ":" ++ pyOptStr h.port)).1,
        calls := (build_kubeconfig s env ("https://" ++
          pyOptStr h.publicAddress ++ ":" ++ pyOptStr h.port)).2,
        raised := false } ∧
    create_self_config s env =
      { state := (build_kubeconfig s env
          ("https://" ++ env.publicAddress ++ ":6443")).1,
        calls := (build_kubeconfig s env
          ("https://" ++ env.publicAddress ++ ":6443")).2,
        raised := false } ∧
    (∀ server : String,
      slookup s.fingerprints "kubeconfig.server" = some server →
      (build_kubeconfig s env server).2 = []) := by
  refine ⟨rfl, rfl, ?_⟩
  intro server hsv
  have hca' : (env.tlsCaPath == "") = false := beq_eq_false_iff_ne.mpr hca
  have hkey' : (env.tlsClientKeyPath == "") = false :=
    beq_eq_false_iff_ne.mpr hkey
  have hcert' : (env.tlsClientCertPath == "") = false :=
    beq_eq_false_iff_ne.mpr hcert
  unfold build_kubeconfig dataChanged
  simp [hca', hcaf, hkey', hkeyf, hcert', hcertf, hsv]

def kcState : State :=
  { State.empty with
    files := [("/srv/kubernetes/ca.crt", "CA"),
              ("/srv/kubernetes/client.key", "CK"),
              ("/srv/kubernetes/client.crt", "CC")],
    fingerprints := [("kubeconfig.server", "https://lb.example.com:443")] }

theorem kubeconfig_server_choice_and_skip_witness :
    (loadbalancer_kubeconfig kcState envDefault
      [{ publicAddress := some "lb.example.com", port := some "443" }]).calls
      = [] ∧
    create_self_config kcState envDefault =
      { state := (build_kubeconfig kcState envDefault
          "https://1.2.3.4:6443").1,
        calls := (build_kubeconfig kcState envDefault
          "https://1.2.3.4:6443").2,
        raised := false } := by
  have h := kubeconfig_server_choice_and_skip kcState envDefault
    { publicAddress := some "lb.example.com", port := some "443" } []
    (by decide) (by decide) (by decide) (by decide) (by decide) (by decide)
  constructor
  · rw [h.1]
    exact h.2.2 "https://lb.example.com:443" (by decide)
  · exact h.2.1

end KubeMaster
